import Mathlib

/-!
Shallow embedding of the thermal-label-printer HTTP service.

The repository contains two variants of the same small Express server:
  * variant A (source file `part_000`): a generic multi-item 4x6 shipping
    label with a decorative barcode and support for printing several copies;
  * variant B (`server.js`): a single branded "thank you" label that embeds
    a logo loaded at startup and ignores any copy count.

Strings are modelled by Lean `String` (a list of characters); absent or
`undefined` JavaScript string fields are modelled by `""`, which has the
same truthiness behaviour in every context the sources use (`||`, `?:`,
`if`).  Machine arithmetic on copy counts uses `Int` (JavaScript `parseInt`
yields an integral value or `NaN`, modelled by `Option Int`).
-/

set_option maxRecDepth 100000

/-- A primitive JavaScript value as it can appear in a parsed JSON field
(used for `item.quantity`, which the variant-A template interpolates with
`item.quantity || 1`).  `undef` models an absent field. -/
inductive JsVal where
  | num (n : Int)
  | str (s : String)
  | boolean (b : Bool)
  | null
  | undef
deriving DecidableEq

/-- JavaScript truthiness of the modelled primitive values. -/
def JsVal.truthy : JsVal → Bool
  | .num n => n != 0
  | .str s => s != ""
  | .boolean b => b
  | .null => false
  | .undef => false

/-- JavaScript string coercion of the modelled primitive values, as performed
by template-literal interpolation. -/
def JsVal.toStr : JsVal → String
  | .num n => toString n
  | .str s => s
  | .boolean b => if b then "true" else "false"
  | .null => "null"
  | .undef => "undefined"

/-- JavaScript `a || b` on string fields (with `""` also standing for an
absent/`undefined` field, which is equally falsy). -/
def jsOr (a b : String) : String := if a = "" then b else a

/-- Truthiness test for an optional query-string parameter: `undefined` and
`""` are falsy, any other string is truthy. -/
def presentStr : Option String → Option String
  | some s => if s = "" then none else some s
  | none => none

/-- The current date, as far as the sources observe it:
`new Date().toLocaleDateString` only exposes day, (0-based) month and year
here. -/
structure JsDate where
  year : Int
  month : Nat
  day : Nat
deriving DecidableEq

/-- `en-US` short month names (index 0 = January), as produced by
`toLocaleDateString` with `month: "short"`. -/
def monthShort : Nat → String
  | 0 => "Jan"
  | 1 => "Feb"
  | 2 => "Mar"
  | 3 => "Apr"
  | 4 => "May"
  | 5 => "Jun"
  | 6 => "Jul"
  | 7 => "Aug"
  | 8 => "Sep"
  | 9 => "Oct"
  | 10 => "Nov"
  | 11 => "Dec"
  | _ => ""

/-- `new Date().toLocaleDateString("en-US", ...)` as called by both sources.
Variant A passes year/month/day options, variant B passes day/month/year;
for the `en-US` locale both orderings produce the same `"Mon D, YYYY"`. -/
def toLocaleDateStringEnUS (d : JsDate) : String :=
  monthShort d.month ++ " " ++ toString d.day ++ ", " ++ toString d.year

/-- Whitespace skipped by JavaScript `parseInt` (ASCII portion). -/
def jsSpace (c : Char) : Bool :=
  c = ' ' || c = '\t' || c = '\n' || c = '\r' || c = '\x0b' || c = '\x0c'

/-- Digit value of a character in the given radix (`none` if it is not a
digit of that radix). -/
def digitValRadix (radix : Nat) (c : Char) : Option Nat :=
  let v : Option Nat :=
    if '0' ≤ c ∧ c ≤ '9' then some (c.toNat - '0'.toNat)
    else if 'a' ≤ c ∧ c ≤ 'z' then some (c.toNat - 'a'.toNat + 10)
    else if 'A' ≤ c ∧ c ≤ 'Z' then some (c.toNat - 'A'.toNat + 10)
    else none
  match v with
  | some n => if n < radix then some n else none
  | none => none

/-- JavaScript `parseInt(s)` (radix argument omitted, as in the sources):
skip leading whitespace, read an optional sign, detect a `0x`/`0X` hex
prefix, then take the longest prefix of digits of the radix; `none` models
`NaN` (no digits at all). -/
def parseIntJS (s : String) : Option Int :=
  let t := s.data.dropWhile jsSpace
  let signAndRest : Int × List Char :=
    match t with
    | '-' :: r => (-1, r)
    | '+' :: r => (1, r)
    | _ => (1, t)
  let radixAndRest : Nat × List Char :=
    match signAndRest.2 with
    | '0' :: 'x' :: r => (16, r)
    | '0' :: 'X' :: r => (16, r)
    | _ => (10, signAndRest.2)
  let ds := radixAndRest.2.takeWhile (fun c => (digitValRadix radixAndRest.1 c).isSome)
  if ds = [] then none
  else some (signAndRest.1 *
    Int.ofNat (ds.foldl (fun acc c => acc * radixAndRest.1 + (digitValRadix radixAndRest.1 c).getD 0) 0))

/-- Replace every occurrence of the single character `c` by `rep`; this is
`String.prototype.replace` with a global single-character pattern, which is
all `escapeHtml` uses. -/
def replaceAll (c : Char) (rep : List Char) : List Char → List Char
  | [] => []
  | a :: s => if a = c then rep ++ replaceAll c rep s else a :: replaceAll c rep s

/-- `escapeHtml` (identical in both source files): empty/falsy input yields
`""`, otherwise the five chained global replacements, ampersand first. -/
def escapeHtml (text : String) : String :=
  if text = "" then "" else
  String.mk
    (replaceAll (Char.ofNat 39) "&#039;".data
      (replaceAll '"' "&quot;".data
        (replaceAll '>' "&gt;".data
          (replaceAll '<' "&lt;".data
            (replaceAll '&' "&amp;".data text.data)))))

/-- The five special characters, and the per-character effect of the chain of
replacements in `escapeHtml`: since no replacement string contains a
character that a later stage replaces, the chain acts independently on each
input character. -/
def escapeChar (c : Char) : List Char :=
  if c = '&' then "&amp;".data
  else if c = '<' then "&lt;".data
  else if c = '>' then "&gt;".data
  else if c = '"' then "&quot;".data
  else if c = Char.ofNat 39 then "&#039;".data
  else [c]

/-- Is `c` one of the five characters `escapeHtml` escapes? -/
def isEscapedChar (c : Char) : Bool :=
  c = '&' || c = '<' || c = '>' || c = '"' || c = Char.ofNat 39

example : escapeHtml ("a<b&c\"d" ++ String.mk [Char.ofNat 39] ++ ">e") =
    "a&lt;b&amp;c&quot;d&#039;&gt;e" := by decide

example : parseIntJS ("  -42abc") = some (-42) := by decide
example : parseIntJS ("0x1A") = some 26 := by decide
example : parseIntJS ("abc") = none := by decide
example : parseIntJS ("") = none := by decide
example : parseIntJS ("2.9") = some 2 := by decide

/-- A parsed shipping address.  All fields are optional strings in the JSON;
an absent field is modelled by `""` (same falsiness everywhere the sources
test it). -/
structure Address where
  name : String := ""
  firstName : String := ""
  company : String := ""
  address1 : String := ""
  address2 : String := ""
  city : String := ""
  provinceCode : String := ""
  province : String := ""
  zip : String := ""
  country : String := ""
  phone : String := ""
deriving DecidableEq

/-- A parsed line item: `title`/`name` optional strings, `quantity` an
arbitrary JSON primitive. -/
structure LineItem where
  title : String := ""
  name : String := ""
  quantity : JsVal := .undef
deriving DecidableEq

/-- The order record both handlers build from the query string. -/
structure Order where
  id : Option String := none
  name : String := ""
  shippingAddress : Address := {}
  lineItems : List LineItem := []
deriving DecidableEq

/-- The query parameters of a `GET /print` request, after the framework's own
URL decoding; `none` is an absent parameter. -/
structure Query where
  orderId : Option String := none
  orderName : Option String := none
  labelCount : Option String := none
  shippingAddress : Option String := none
  lineItems : Option String := none
deriving DecidableEq

/-- The observable response of the `/print` handler. -/
structure Response where
  status : Nat
  contentType : String
  accessControlAllowOrigin : String
  body : String
deriving DecidableEq

/-- The `try/catch` that both handlers wrap around the two JSON parses.
`parseAddress`/`parseItems` model `JSON.parse(decodeURIComponent(raw))`
(external library calls); `none` models a thrown exception.  The address is
parsed first; a throw aborts the whole block, so a failing address parse
leaves both defaults in place while a failing item parse keeps the
already-assigned address. -/
def parseQueryParams (parseAddress : String → Option Address)
    (parseItems : String → Option (List LineItem))
    (rawAddress rawItems : Option String) : Address × List LineItem :=
  match presentStr rawAddress with
  | some rawA =>
    match parseAddress rawA with
    | none => ({}, [])
    | some addr =>
      match presentStr rawItems with
      | some rawI =>
        match parseItems rawI with
        | none => (addr, [])
        | some items => (addr, items)
      | none => (addr, [])
  | none =>
    match presentStr rawItems with
    | some rawI =>
      match parseItems rawI with
      | none => ({}, [])
      | some items => ({}, items)
    | none => ({}, [])

/-- `orderName || 'Order'`. -/
def orderNameOf : Option String → String
  | some s => jsOr s ("Order")
  | none => "Order"

/-- Variant A's copy count: `parseInt(labelCount) || 1`, with `labelCount`
defaulting to the number `1` when the parameter is absent.  `NaN` and `0`
are falsy and fall back to `1`; any other integer (negative included) is
kept. -/
def copiesFromLabelCount : Option String → Int
  | none => 1
  | some s =>
    match parseIntJS s with
    | none => 1
    | some n => if n = 0 then 1 else n

/-- ASCII alphanumeric test: the characters kept by the barcode generator's
`replace(/[^a-zA-Z0-9]/g, '')`. -/
def isAlnumAscii (c : Char) : Bool :=
  ('a' ≤ c && c ≤ 'z') || ('A' ≤ c && c ≤ 'Z') || ('0' ≤ c && c ≤ '9')

namespace VariantA

/-- One `<rect .../>` line of the decorative barcode SVG. -/
def rectLine (x w : Nat) : String :=
  "<rect x=\"" ++ toString x ++ "\" y=\"5\" width=\"" ++ toString w ++
    "\" height=\"30\" fill=\"black\"/>"

/-- Bar width of a character: `(charCode mod 3) + 1`. -/
def barWidth (c : Char) : Nat := c.toNat % 3 + 1

/-- The bars, left to right: each bar is drawn at the cursor `x`, which then
advances by `width + 2`. -/
def barcodeLinesFrom : List Char → Nat → List String
  | [], _ => []
  | c :: cs, x => rectLine x (barWidth c) :: barcodeLinesFrom cs (x + (barWidth c + 2))

/-- `generateBarcodeLines` of variant A: falsy text yields `""`; otherwise
strip non-alphanumeric characters, draw one bar per remaining character
starting at `x = 10`, and join the `<rect/>` strings with `join('')`. -/
def generateBarcodeLines (text : String) : String :=
  if text = "" then ""
  else String.join (barcodeLinesFrom (text.data.filter isAlnumAscii) 10)

example : (barcodeLinesFrom (("AB1").data.filter isAlnumAscii) 10).length = 3 := by decide
example : (barcodeLinesFrom (("A-B").data.filter isAlnumAscii) 10).length = 2 := by decide
example : generateBarcodeLines ("A") = "<rect x=\"10\" y=\"5\" width=\"3\" height=\"30\" fill=\"black\"/>" := by decide

end VariantA

namespace VariantA

/-- The string interpolated for a line item's quantity: `${item.quantity || 1}`.
Note this is NOT passed through `escapeHtml`. -/
def qtyDisplayed (item : LineItem) : String :=
  if item.quantity.truthy then item.quantity.toStr else "1"

/-- `item.title || item.name || 'Item'`. -/
def itemDisplayName (item : LineItem) : String :=
  jsOr (jsOr item.title item.name) ("Item")

/-- One `item-row` block of the items list (the template literal inside
`lineItems.slice(0, 5).map(...)`). -/
def itemRowHtml (item : LineItem) : String :=
  "\n    <div class=\"item-row\">\n      <span class=\"item-qty\">" ++
    qtyDisplayed item ++
    "x</span>\n      <span class=\"item-name\">" ++
    escapeHtml (itemDisplayName item) ++
    "</span>\n    </div>\n  "

/-- `lineItems.slice(0, 5).map(...).join('')`. -/
def itemsHtml (lineItems : List LineItem) : String :=
  String.join ((lineItems.take 5).map itemRowHtml)

/-- `lineItems.length - 5` (JavaScript number arithmetic, may be negative). -/
def moreItemsCount (lineItems : List LineItem) : Int :=
  (lineItems.length : Int) - 5

/-- `moreItemsCount > 0 ? `<div class="more-items">...` : ''`. -/
def moreItemsHtml (lineItems : List LineItem) : String :=
  if 0 < moreItemsCount lineItems then
    "<div class=\"more-items\">+ " ++ toString (moreItemsCount lineItems) ++ " more items</div>"
  else ""

/-- `'<div class="page-break"></div>'`, the separator passed to `join`. -/
def pageBreakHtml : String := "<div class=\"page-break\"></div>"

/-- JavaScript `Array.prototype.join(sep)`. -/
def joinSep (sep : String) : List String → String
  | [] => ""
  | [s] => s
  | s :: rest => s ++ sep ++ joinSep sep rest

/-- One label panel: the template literal inside
`Array(copies).fill(null).map(() => ...)` (it does not depend on the loop
index, so every panel is this same string). -/
def labelBlock (now : JsDate) (order : Order) : String :=
  "
    <div class=\"label\">
      <!-- Header with Logo/Company -->
      <div class=\"header\">
        <div class=\"company-name\">SHIP TO</div>
        <div class=\"order-info\">
          <div class=\"order-number\">" ++ escapeHtml order.name ++ "</div>
          <div class=\"order-date\">" ++ toLocaleDateStringEnUS now ++ "</div>
        </div>
      </div>

      <!-- Main Shipping Address -->
      <div class=\"address-block\">
        <div class=\"recipient-name\">" ++
    escapeHtml (jsOr order.shippingAddress.name ("N/A")) ++ "</div>
        " ++
    (if order.shippingAddress.company ≠ "" then
      "<div class=\"company\">" ++ escapeHtml order.shippingAddress.company ++ "</div>"
    else "") ++ "
        <div class=\"street\">" ++ escapeHtml order.shippingAddress.address1 ++ "</div>
        " ++
    (if order.shippingAddress.address2 ≠ "" then
      "<div class=\"street\">" ++ escapeHtml order.shippingAddress.address2 ++ "</div>"
    else "") ++ "
        <div class=\"city-state-zip\">
          " ++ escapeHtml order.shippingAddress.city ++ ", " ++
    escapeHtml (jsOr order.shippingAddress.provinceCode order.shippingAddress.province) ++
    " " ++ escapeHtml order.shippingAddress.zip ++ "
        </div>
        <div class=\"country\">" ++ escapeHtml order.shippingAddress.country ++ "</div>
        " ++
    (if order.shippingAddress.phone ≠ "" then
      "<div class=\"phone\">Tel: " ++ escapeHtml order.shippingAddress.phone ++ "</div>"
    else "") ++ "
      </div>

      <!-- Divider -->
      <div class=\"divider\"></div>

      <!-- Package Contents Summary -->
      <div class=\"contents-section\">
        <div class=\"contents-title\">PACKAGE CONTENTS</div>
        <div class=\"items-list\">
          " ++ itemsHtml order.lineItems ++ "
          " ++ moreItemsHtml order.lineItems ++ "
        </div>
      </div>

      <!-- Footer with Barcode placeholder -->
      <div class=\"footer\">
        <div class=\"barcode-area\">
          <svg class=\"barcode-placeholder\" viewBox=\"0 0 200 40\">
            " ++ generateBarcodeLines order.name ++ "
          </svg>
          <div class=\"barcode-text\">" ++ escapeHtml order.name ++ "</div>
        </div>
      </div>
    </div>
  "

/-- `labelsHtml`: `Array(copies).fill(null).map(() => labelBlock).join(pageBreak)`
for a valid array length `copiesN`; the map yields `copiesN` identical label
panels, so the list of rendered label panels is `List.replicate copiesN`. -/
def labelsHtml (now : JsDate) (order : Order) (copiesN : Nat) : String :=
  joinSep pageBreakHtml (List.replicate copiesN (labelBlock now order))

end VariantA

namespace VariantA

/-- The document head up to the title interpolation. -/
def docHead : String :=
  "<!DOCTYPE html>
<html lang=\"en\">
<head>
  <meta charset=\"UTF-8\">
  <meta name=\"viewport\" content=\"width=device-width, initial-scale=1.0\">
  <title>Shipping Label - "

/-- The style sheet and surrounding markup between the title interpolation and
the `${labelsHtml}` interpolation, first part (the source text verbatim; it is
split over three literals only to keep each literal small). -/
def docStyle1 : String :=
  "</title>
  <style>
    @page \x7b
      size: 4in 6in;
      margin: 0;
    \x7d

    * \x7b
      box-sizing: border-box;
      margin: 0;
      padding: 0;
    \x7d

    body \x7b
      font-family: \x27Arial\x27, \x27Helvetica\x27, sans-serif;
      font-size: 12px;
      line-height: 1.3;
      color: #000;
      background: #fff;
    \x7d

    .label \x7b
      width: 4in;
      height: 6in;
      padding: 0.2in;
      display: flex;
      flex-direction: column;
      page-break-after: always;
      background: #fff;
    \x7d

    .page-break \x7b
      page-break-after: always;
      height: 0;
    \x7d

    /* Header */
    .header \x7b
      display: flex;
      justify-content: space-between;
      align-items: flex-start;
      padding-bottom: 0.15in;
      border-bottom: 2px solid #000;
      margin-bottom: 0.15in;
    \x7d

    .company-name \x7b
      font-size: 14px;
      font-weight: bold;
      letter-spacing: 1px;
    \x7d

    .order-info \x7b
      text-align: right;
    \x7d

    .order-number \x7b
      font-size: 16px;
      font-weight: bold;
    \x7d

    .order-date \x7b
      font-size: 10px;
      color: #333;
    \x7d
"

/-- Style sheet, second part, first half (the source text is the
concatenation `docStyle2a ++ docStyle2b`, split only to keep each literal
small). -/
def docStyle2a : String :=
  "
    /* Address Block */
    .address-block \x7b
      flex: 1;
      padding: 0.1in 0;
    \x7d

    .recipient-name \x7b
      font-size: 18px;
      font-weight: bold;
      margin-bottom: 4px;
      text-transform: uppercase;
    \x7d

    .company \x7b
      font-size: 14px;
      margin-bottom: 2px;
    \x7d

    .street \x7b
      font-size: 14px;
      margin-bottom: 2px;
    \x7d

    .city-state-zip \x7b
      font-size: 14px;
      font-weight: bold;
      margin-bottom: 2px;
    \x7d

    .country \x7b
      font-size: 12px;
      margin-bottom: 4px;
    \x7d

    .phone \x7b
      font-size: 11px;
      color: #333;
    \x7d
"

/-- Style sheet, second part, second half. -/
def docStyle2b : String :=
  "
    /* Divider */
    .divider \x7b
      height: 1px;
      background: #ccc;
      margin: 0.1in 0;
    \x7d

    /* Contents Section */
    .contents-section \x7b
      padding: 0.1in 0;
      max-height: 1.5in;
      overflow: hidden;
    \x7d

    .contents-title \x7b
      font-size: 10px;
      font-weight: bold;
      letter-spacing: 0.5px;
      margin-bottom: 4px;
      color: #666;
    \x7d

    .items-list \x7b
      font-size: 10px;
    \x7d

    .item-row \x7b
      display: flex;
      gap: 4px;
      margin-bottom: 2px;
    \x7d

    .item-qty \x7b
      font-weight: bold;
      min-width: 25px;
    \x7d

    .item-name \x7b
      flex: 1;
      white-space: nowrap;
      overflow: hidden;
      text-overflow: ellipsis;
    \x7d

    .more-items \x7b
      font-style: italic;
      color: #666;
      margin-top: 4px;
    \x7d
"

/-- Style sheet, second part: the source text verbatim. -/
def docStyle2 : String := docStyle2a ++ docStyle2b

/-- Style sheet, third part, ending right before the `${labelsHtml}`
interpolation. -/
def docStyle3 : String :=
  "
    /* Footer */
    .footer \x7b
      margin-top: auto;
      padding-top: 0.1in;
      border-top: 1px solid #ccc;
    \x7d

    .barcode-area \x7b
      text-align: center;
    \x7d

    .barcode-placeholder \x7b
      width: 100%;
      max-width: 200px;
      height: 40px;
    \x7d

    .barcode-text \x7b
      font-size: 10px;
      font-family: monospace;
      margin-top: 2px;
    \x7d

    /* Print-specific styles */
    @media print \x7b
      body \x7b
        -webkit-print-color-adjust: exact;
        print-color-adjust: exact;
      \x7d
      
      .label \x7b
        page-break-inside: avoid;
      \x7d
    \x7d
  </style>
</head>
<body>
  "

/-- The document tail after the `${labelsHtml}` interpolation. -/
def docTail : String := "
</body>
</html>"

/-- The full HTML document returned by variant A's renderer for an already
validated array length `copiesN`. -/
def labelDocument (now : JsDate) (order : Order) (copiesN : Nat) : String :=
  docHead ++ escapeHtml order.name ++ docStyle1 ++ docStyle2 ++ docStyle3 ++
    labelsHtml now order copiesN ++ docTail

/-- Variant A's `generateThermalLabelHtml(order, copies)`.  `Array(copies)`
throws a `RangeError` ("Invalid array length") unless `copies` is an integer
with `0 <= copies <= 2^32 - 1`; `copies` here is always an integer
(`parseInt(labelCount) || 1`), so the renderer throws exactly when it is
negative or at least `2^32`.  The throw is modelled by `Except.error`. -/
def generateThermalLabelHtml (now : JsDate) (order : Order) (copies : Int) :
    Except String String :=
  if 0 ≤ copies ∧ copies < 4294967296 then
    .ok (labelDocument now order copies.toNat)
  else .error ("Invalid array length")

/-- Variant A's `GET /print` handler: parse the query defensively, build the
order record, render, respond `200 text/html`.  An exception escaping the
handler (only possible from `Array(copies)`) is an `Except.error`; Express
then produces its default error response, not a 200. -/
def printHandler (now : JsDate) (parseAddress : String → Option Address)
    (parseItems : String → Option (List LineItem)) (q : Query) :
    Except String Response :=
  let parsed := parseQueryParams parseAddress parseItems q.shippingAddress q.lineItems
  let order : Order :=
    { id := q.orderId
      name := orderNameOf q.orderName
      shippingAddress := parsed.1
      lineItems := parsed.2 }
  (generateThermalLabelHtml now order (copiesFromLabelCount q.labelCount)).map
    (fun html =>
      { status := 200
        contentType := "text/html"
        accessControlAllowOrigin := "*"
        body := html })

end VariantA

namespace VariantB

/-- `shippingAddress.firstName || (shippingAddress.name ?
shippingAddress.name.split(' ')[0] : 'Customer')`: the first
space-delimited token of the name (everything before the first space). -/
def firstNameOf (shippingAddress : Address) : String :=
  if shippingAddress.firstName ≠ "" then shippingAddress.firstName
  else if shippingAddress.name ≠ "" then
    String.mk (shippingAddress.name.data.takeWhile (fun c => c ≠ ' '))
  else "Customer"

/-- `String.prototype.toUpperCase` (ASCII mapping; the JavaScript function
uses the full Unicode mapping, which agrees on every character the claims
exercise). -/
def toUpperCaseJS (s : String) : String := String.mk (s.data.map Char.toUpper)

/-- Variant B document head up to the title interpolation. -/
def docHead : String :=
  "<!DOCTYPE html>
<html lang=\"en\">
<head>
  <meta charset=\"UTF-8\">
  <meta name=\"viewport\" content=\"width=device-width, initial-scale=1.0\">
  <title>Shipping Label - "

/-- Variant B style sheet, first part, first half (the source text is the
concatenation of the halves, split only to keep each literal small). -/
def docStyle1a : String :=
  "</title>
  <style>
    @page \x7b
      size: 4in 6in;
      margin: 0;
    \x7d

    * \x7b
      box-sizing: border-box;
      margin: 0;
      padding: 0;
    \x7d

    body \x7b
      font-family: \x27Arial\x27, \x27Helvetica\x27, sans-serif;
      background: #fff;
    \x7d

    .label \x7b
      width: 4in;
      height: 6in;
      padding: 0.3in 0.25in;
      background: #fff;
      display: flex;
      flex-direction: column;
      align-items: center;
    \x7d

    /* Top line decoration */
    .top-line \x7b
      width: 60px;
      height: 4px;
      background: #000;
      margin-bottom: 0.2in;
    \x7d
"

/-- Variant B style sheet, first part, second half. -/
def docStyle1b : String :=
  "
    /* Thank you section */
    .thank-you \x7b
      text-align: center;
      margin-bottom: 0.35in;
    \x7d

    .thank-you-text \x7b
      font-size: 16px;
      letter-spacing: 4px;
      font-weight: 400;
      margin-bottom: 2px;
    \x7d

    .customer-name \x7b
      font-size: 22px;
      letter-spacing: 4px;
      font-weight: 400;
    \x7d

    /* Logo section */
    .logo-section \x7b
      display: flex;
      flex-direction: column;
      align-items: center;
      flex: 1;
      justify-content: center;
    \x7d

    .logo \x7b
      width: 120px;
      height: 120px;
      margin-bottom: 0.15in;
    \x7d

    .brand-name \x7b
      font-size: 36px;
      font-weight: bold;
      letter-spacing: 1px;
    \x7d
"

/-- Variant B style sheet, first part: the source text verbatim. -/
def docStyle1 : String := docStyle1a ++ docStyle1b

/-- Variant B style sheet second part, then the markup up to the customer
name interpolation. -/
def docStyle2 : String :=
  "
    /* Order info */
    .order-info \x7b
      display: flex;
      justify-content: space-between;
      width: 100%;
      margin-top: auto;
      margin-bottom: 0.25in;
      font-size: 14px;
    \x7d

    .date \x7b
      font-weight: 400;
    \x7d

    .order-number \x7b
      font-weight: 400;
    \x7d

    /* Footer */
    .footer \x7b
      display: flex;
      justify-content: center;
      gap: 0.25in;
      width: 100%;
      padding-top: 0.15in;
      border-top: 1px solid #eee;
    \x7d

    .social-item \x7b
      display: flex;
      align-items: center;
      gap: 4px;
      font-size: 11px;
    \x7d

    .social-icon \x7b
      width: 16px;
      height: 16px;
    \x7d

    @media print \x7b
      body \x7b
        -webkit-print-color-adjust: exact;
        print-color-adjust: exact;
      \x7d
    \x7d
  </style>
</head>
<body>
  <div class=\"label\">
    <!-- Top line decoration -->
    <div class=\"top-line\"></div>
    
    <!-- Thank you message -->
    <div class=\"thank-you\">
      <div class=\"thank-you-text\">THANK YOU,</div>
      <div class=\"customer-name\">"

/-- Between the customer name and the logo data URI. -/
def docLogoLead : String :=
  "</div>
    </div>

    <!-- Logo -->
    <div class=\"logo-section\">
      <img class=\"logo\" src=\"data:image/png;base64,"

/-- Between the logo data URI and the date. -/
def docDateLead : String :=
  "\" alt=\"AD-Bits Logo\" />
      <div class=\"brand-name\">AD-Bits</div>
    </div>

    <!-- Order info -->
    <div class=\"order-info\">
      <div class=\"date\">"

/-- Between the date and the order number. -/
def docOrderLead : String :=
  "</div>
      <div class=\"order-number\">Order "

/-- The fixed footer after the order number interpolation, first half (the
source text is the concatenation of the halves, split only to keep each
literal small). -/
def docTailA : String :=
  "</div>
    </div>

    <!-- Footer with social -->
    <div class=\"footer\">
      <div class=\"social-item\">
        <svg class=\"social-icon\" viewBox=\"0 0 24 24\" fill=\"black\">
          <path d=\"M12 2.163c3.204 0 3.584.012 4.85.07 3.252.148 4.771 1.691 4.919 4.919.058 1.265.069 1.645.069 4.849 0 3.205-.012 3.584-.069 4.849-.149 3.225-1.664 4.771-4.919 4.919-1.266.058-1.644.07-4.85.07-3.204 0-3.584-.012-4.849-.07-3.26-.149-4.771-1.699-4.919-4.92-.058-1.265-.07-1.644-.07-4.849 0-3.204.013-3.583.07-4.849.149-3.227 1.664-4.771 4.919-4.919 1.266-.057 1.645-.069 4.849-.069zm0-2.163c-3.259 0-3.667.014-4.947.072-4.358.2-6.78 2.618-6.98 6.98-.059 1.281-.073 1.689-.073 4.948 0 3.259.014 3.668.072 4.948.2 4.358 2.618 6.78 6.98 6.98 1.281.058 1.689.072 4.948.072 3.259 0 3.668-.014 4.948-.072 4.354-.2 6.782-2.618 6.979-6.98.059-1.28.073-1.689.073-4.948 0-3.259-.014-3.667-.072-4.947-.196-4.354-2.617-6.78-6.979-6.98-1.281-.059-1.69-.073-4.949-.073zm0 5.838c-3.403 0-6.162 2.759-6.162 6.162s2.759 6.163 6.162 6.163 6.162-2.759 6.162-6.163c0-3.403-2.759-6.162-6.162-6.162zm0 10.162c-2.209 0-4-1.79-4-4 0-2.209 1.791-4 4-4s4 1.791 4 4c0 2.21-1.791 4-4 4zm6.406-11.845c-.796 0-1.441.645-1.441 1.44s.645 1.44 1.441 1.44c.795 0 1.439-.645 1.439-1.44s-.644-1.44-1.439-1.44z\"/>
        </svg>
        <span>@adbits3d</span>
      </div>
      "

/-- The fixed footer, second half. -/
def docTailB : String :=
  "<div class=\"social-item\">
        <svg class=\"social-icon\" viewBox=\"0 0 24 24\" fill=\"black\">
          <circle cx=\"12\" cy=\"12\" r=\"10\" stroke=\"black\" stroke-width=\"2\" fill=\"none\"/>
          <path d=\"M2 12h20M12 2c-2.5 2.5-4 5.5-4 10s1.5 7.5 4 10c2.5-2.5 4-5.5 4-10s-1.5-7.5-4-10z\" stroke=\"black\" stroke-width=\"1.5\" fill=\"none\"/>
        </svg>
        <span>adbits.ca</span>
      </div>
      <div class=\"social-item\">
        <svg class=\"social-icon\" viewBox=\"0 0 24 24\" fill=\"black\">
          <path d=\"M24 12.073c0-6.627-5.373-12-12-12s-12 5.373-12 12c0 5.99 4.388 10.954 10.125 11.854v-8.385H7.078v-3.47h3.047V9.43c0-3.007 1.792-4.669 4.533-4.669 1.312 0 2.686.235 2.686.235v2.953H15.83c-1.491 0-1.956.925-1.956 1.874v2.25h3.328l-.532 3.47h-2.796v8.385C19.612 23.027 24 18.062 24 12.073z\"/>
        </svg>
        <span>AD-Bits</span>
      </div>
    </div>
  </div>
</body>
</html>"

/-- The fixed footer after the order number interpolation: the source text
verbatim. -/
def docTail : String := docTailA ++ docTailB

/-- Variant B's `generateThermalLabelHtml(order)`: always a single label
panel; the process-wide `logoBase64` (loaded once at startup, `\"\"` if the
asset could not be read) and the current date are the only ambient inputs,
made explicit here. -/
def generateThermalLabelHtml (now : JsDate) (logoBase64 : String) (order : Order) : String :=
  docHead ++ escapeHtml order.name ++ docStyle1 ++ docStyle2 ++
    escapeHtml (toUpperCaseJS (firstNameOf order.shippingAddress)) ++
    docLogoLead ++ logoBase64 ++ docDateLead ++ toLocaleDateStringEnUS now ++
    docOrderLead ++ escapeHtml order.name ++ docTail

/-- Variant B's `GET /print` handler: identical query handling to variant A
(including destructuring `labelCount`, which is then never used), but the
renderer takes no copy count and cannot throw, so the response is always
`200 text/html`. -/
def printHandler (now : JsDate) (logoBase64 : String)
    (parseAddress : String → Option Address)
    (parseItems : String → Option (List LineItem)) (q : Query) : Response :=
  let parsed := parseQueryParams parseAddress parseItems q.shippingAddress q.lineItems
  let order : Order :=
    { id := q.orderId
      name := orderNameOf q.orderName
      shippingAddress := parsed.1
      lineItems := parsed.2 }
  { status := 200
    contentType := "text/html"
    accessControlAllowOrigin := "*"
    body := generateThermalLabelHtml now logoBase64 order }

end VariantB

/-- Boolean prefix test on character lists. -/
def isPrefixOfCL : List Char → List Char → Bool
  | [], _ => true
  | _ :: _, [] => false
  | a :: s, b :: t => a = b && isPrefixOfCL s t

/-- Does `pat` occur contiguously anywhere in `s`? -/
def containsCL (s pat : List Char) : Bool :=
  match s with
  | [] => isPrefixOfCL pat []
  | _ :: t => isPrefixOfCL pat s || containsCL t pat

/-- Number of (possibly overlapping) start positions of `pat` in `s`. -/
def countCL (s pat : List Char) : Nat :=
  match s with
  | [] => if isPrefixOfCL pat [] then 1 else 0
  | _ :: t => (if isPrefixOfCL pat s then 1 else 0) + countCL t pat

/-- Does `pat` occur contiguously in `s`? -/
def containsStr (s pat : String) : Bool := containsCL s.data pat.data

/-- Number of occurrences of `pat` in `s`. -/
def countStr (s pat : String) : Nat := countCL s.data pat.data

/-- `pat` is a contiguous substring of `s`. -/
def StrInfix (pat s : String) : Prop := pat.data <:+: s.data

theorem isPrefixOfCL_iff {p s : List Char} : isPrefixOfCL p s = true ↔ p <+: s := by
  induction p generalizing s with
  | nil => simp [isPrefixOfCL, List.nil_prefix]
  | cons a p ih =>
    cases s with
    | nil => simp [isPrefixOfCL, List.prefix_nil]
    | cons b t => simp [isPrefixOfCL, List.cons_prefix_cons, ih]

theorem containsCL_iff {s p : List Char} : containsCL s p = true ↔ p <:+: s := by
  induction s with
  | nil => simp [containsCL, isPrefixOfCL_iff, List.infix_nil, List.prefix_nil]
  | cons a t ih => simp [containsCL, isPrefixOfCL_iff, ih, List.infix_cons_iff]

theorem infix_iff_exists_drop {p s : List Char} : p <:+: s ↔ ∃ i, p <+: s.drop i := by
  constructor
  · intro h
    obtain ⟨t, hpt, hts⟩ := List.infix_iff_prefix_suffix.mp h
    exact ⟨s.length - t.length, by rw [← List.suffix_iff_eq_drop.mp hts]; exact hpt⟩
  · rintro ⟨i, hi⟩
    exact List.infix_iff_prefix_suffix.mpr ⟨s.drop i, hi, List.drop_suffix i s⟩

theorem prefix_of_prefix_append {p s b : List Char} (h : p <+: s ++ b)
    (hle : p.length ≤ s.length) : p <+: s := by
  have h2 : p = List.take p.length s := by
    calc p = List.take p.length (s ++ b) := List.prefix_iff_eq_take.mp h
      _ = List.take p.length s ++ List.take (p.length - s.length) b :=
        List.take_append_eq_append_take
      _ = List.take p.length s := by
        rw [Nat.sub_eq_zero_of_le hle]; simp
  rw [h2]
  exact List.take_prefix _ _

theorem span_window {p s a b : List Char} (hs : s <:+ a) (hne : s ≠ [])
    (hlen : s.length < p.length) (hp : p <+: s ++ b) :
    p <:+: (a.drop (a.length - (p.length - 1)) ++ b.take (p.length - 1)) := by
  have hsle : s.length ≤ p.length := Nat.le_of_lt hlen
  have hpeq : p = s ++ List.take (p.length - s.length) b := by
    calc p = List.take p.length (s ++ b) := List.prefix_iff_eq_take.mp hp
      _ = List.take p.length s ++ List.take (p.length - s.length) b :=
        List.take_append_eq_append_take
      _ = s ++ List.take (p.length - s.length) b := by
        rw [List.take_of_length_le hsle]
  have hs1 : 1 ≤ s.length := by
    cases s with
    | nil => exact absurd rfl hne
    | cons x t => simp
  -- `s` is a suffix of the last `p.length - 1` characters of `a`
  have hdrop : s = List.drop ((a.length - s.length) - (a.length - (p.length - 1)))
      (List.drop (a.length - (p.length - 1)) a) := by
    rw [List.drop_drop]
    have harith : a.length - (p.length - 1) + ((a.length - s.length) - (a.length - (p.length - 1)))
        = a.length - s.length := by omega
    rw [harith]
    exact List.suffix_iff_eq_drop.mp hs
  have hsuf : s <:+ List.drop (a.length - (p.length - 1)) a := by
    rw [hdrop]
    exact List.drop_suffix _ _
  -- the prefix of `b` inside `p` fits into the first `p.length - 1` characters of `b`
  have htake : List.take (p.length - s.length) b
      = List.take (p.length - s.length) (List.take (p.length - 1) b) := by
    rw [List.take_take]
    congr 1
    omega
  obtain ⟨u, hu⟩ := hsuf
  have hpre : p <+: s ++ List.take (p.length - 1) b := by
    nth_rewrite 1 [hpeq]
    rw [htake]
    obtain ⟨w, hw⟩ : ∃ w, List.take (p.length - 1) b
        = List.take (p.length - s.length) (List.take (p.length - 1) b) ++ w :=
      ⟨List.drop (p.length - s.length) (List.take (p.length - 1) b),
        (List.take_append_drop _ _).symm⟩
    exact ⟨w, by rw [List.append_assoc, ← hw]⟩
  refine List.infix_iff_prefix_suffix.mpr ⟨s ++ List.take (p.length - 1) b, hpre, ?_⟩
  exact ⟨u, by rw [← List.append_assoc, hu]⟩

theorem containsCL_append_split {a b p : List Char}
    (h : containsCL (a ++ b) p = true) :
    containsCL a p = true ∨
    containsCL (a.drop (a.length - (p.length - 1)) ++ b.take (p.length - 1)) p = true ∨
    containsCL b p = true := by
  rw [containsCL_iff] at h
  obtain ⟨i, hi⟩ := infix_iff_exists_drop.mp h
  rw [List.drop_append_eq_append_drop] at hi
  by_cases hcase : a.length ≤ i
  · right; right
    rw [List.drop_eq_nil_of_le hcase, List.nil_append] at hi
    exact containsCL_iff.mpr (infix_iff_exists_drop.mpr ⟨i - a.length, hi⟩)
  · have hlt : i < a.length := Nat.lt_of_not_le hcase
    rw [Nat.sub_eq_zero_of_le (Nat.le_of_lt hlt), List.drop_zero] at hi
    by_cases hfit : p.length ≤ (a.drop i).length
    · left
      exact containsCL_iff.mpr
        (infix_iff_exists_drop.mpr ⟨i, prefix_of_prefix_append hi hfit⟩)
    · right; left
      have hne : a.drop i ≠ [] := by
        have : (a.drop i).length = a.length - i := List.length_drop i a
        intro hnil
        rw [hnil] at this
        simp at this
        omega
      exact containsCL_iff.mpr
        (span_window (List.drop_suffix i a) hne (Nat.lt_of_not_le hfit) hi)

theorem containsCL_append_false {a b p : List Char}
    (h1 : containsCL a p = false)
    (h2 : containsCL (a.drop (a.length - (p.length - 1)) ++ b.take (p.length - 1)) p = false)
    (h3 : containsCL b p = false) :
    containsCL (a ++ b) p = false := by
  cases hc : containsCL (a ++ b) p with
  | false => rfl
  | true => rcases containsCL_append_split hc with hx | hx | hx <;> simp_all

theorem isPrefixOfCL_append_of_le {p s b : List Char} (hle : p.length ≤ s.length) :
    isPrefixOfCL p (s ++ b) = isPrefixOfCL p s := by
  rw [Bool.eq_iff_iff, isPrefixOfCL_iff, isPrefixOfCL_iff]
  constructor
  · intro h
    exact prefix_of_prefix_append h hle
  · intro h
    exact h.trans (List.prefix_append s b)

theorem countCL_append_of_far {a b p : List Char} (hp : p ≠ [])
    (H : ∀ s, s <:+ a → s ≠ [] → s.length < p.length → ¬ (p <+: s ++ b)) :
    countCL (a ++ b) p = countCL a p + countCL b p := by
  induction a with
  | nil =>
    have hnil : isPrefixOfCL p [] = false := by
      cases p with
      | nil => exact absurd rfl hp
      | cons x t => rfl
    simp [countCL, hnil]
  | cons x a2 ih =>
    have H2 : ∀ s, s <:+ a2 → s ≠ [] → s.length < p.length → ¬ (p <+: s ++ b) :=
      fun s hs => H s (hs.trans (List.suffix_cons x a2))
    have hhead : isPrefixOfCL p ((x :: a2) ++ b) = isPrefixOfCL p (x :: a2) := by
      by_cases hfit : p.length ≤ (x :: a2).length
      · exact isPrefixOfCL_append_of_le hfit
      · have hf1 : isPrefixOfCL p ((x :: a2) ++ b) = false := by
          cases hc : isPrefixOfCL p ((x :: a2) ++ b) with
          | false => rfl
          | true =>
            exact absurd (isPrefixOfCL_iff.mp hc)
              (H (x :: a2) (List.suffix_refl _) (List.cons_ne_nil x a2)
                (Nat.lt_of_not_le hfit))
        have hf2 : isPrefixOfCL p (x :: a2) = false := by
          cases hc : isPrefixOfCL p (x :: a2) with
          | false => rfl
          | true => exact absurd (isPrefixOfCL_iff.mp hc).length_le hfit
        rw [hf1, hf2]
    simp only [List.cons_append, countCL] at *
    simp only [List.append_eq, hhead, ih H2, Nat.add_assoc]

theorem countCL_append_of_window {a b p : List Char} (hp : p ≠ [])
    (hw : containsCL (a.drop (a.length - (p.length - 1)) ++ b.take (p.length - 1)) p = false) :
    countCL (a ++ b) p = countCL a p + countCL b p := by
  refine countCL_append_of_far hp ?_
  intro s hs hne hlen hpre
  have hinf := span_window hs hne hlen hpre
  have hc := containsCL_iff.mpr hinf
  rw [hw] at hc
  cases hc

theorem StrInfix.rfl (x : String) : StrInfix x x := List.infix_refl _

theorem StrInfix.appendLeft {x m : String} (h : StrInfix x m) (l : String) :
    StrInfix x (l ++ m) := by
  unfold StrInfix at *
  rw [String.data_append]
  obtain ⟨u, v, huv⟩ := h
  exact ⟨l.data ++ u, v, by rw [← huv]; simp⟩

theorem StrInfix.appendRight {x m : String} (h : StrInfix x m) (r : String) :
    StrInfix x (m ++ r) := by
  unfold StrInfix at *
  rw [String.data_append]
  obtain ⟨u, v, huv⟩ := h
  exact ⟨u, v ++ r.data, by rw [← huv]; simp⟩

theorem containsStr_iff {s pat : String} : containsStr s pat = true ↔ StrInfix pat s :=
  containsCL_iff

theorem replaceAll_append (c : Char) (r : List Char) (x y : List Char) :
    replaceAll c r (x ++ y) = replaceAll c r x ++ replaceAll c r y := by
  induction x with
  | nil => simp [replaceAll]
  | cons a t ih =>
    by_cases h : a = c <;> simp [replaceAll, h, ih]

theorem escapeHtml_chain (l : List Char) :
    replaceAll (Char.ofNat 39) "&#039;".data
      (replaceAll '"' "&quot;".data
        (replaceAll '>' "&gt;".data
          (replaceAll '<' "&lt;".data
            (replaceAll '&' "&amp;".data l)))) = l.flatMap escapeChar := by
  induction l with
  | nil => rfl
  | cons a t ih =>
    by_cases h1 : a = '&'
    · subst h1
      have hc : replaceAll (Char.ofNat 39) "&#039;".data
          (replaceAll '"' "&quot;".data
            (replaceAll '>' "&gt;".data
              (replaceAll '<' "&lt;".data "&amp;".data))) = "&amp;".data := by decide
      simp [replaceAll, replaceAll_append, ih, escapeChar, hc]
    · by_cases h2 : a = '<'
      · subst h2
        have hc : replaceAll (Char.ofNat 39) "&#039;".data
            (replaceAll '"' "&quot;".data
              (replaceAll '>' "&gt;".data "&lt;".data)) = "&lt;".data := by decide
        simp [replaceAll, replaceAll_append, ih, escapeChar, h1, hc]
      · by_cases h3 : a = '>'
        · subst h3
          have hc : replaceAll (Char.ofNat 39) "&#039;".data
              (replaceAll '"' "&quot;".data "&gt;".data) = "&gt;".data := by decide
          simp [replaceAll, replaceAll_append, ih, escapeChar, h1, h2, hc]
        · by_cases h4 : a = '"'
          · subst h4
            have hc : replaceAll (Char.ofNat 39) "&#039;".data "&quot;".data
                = "&quot;".data := by decide
            simp [replaceAll, replaceAll_append, ih, escapeChar, h1, h2, h3, hc]
          · by_cases h5 : a = Char.ofNat 39
            · subst h5
              simp [replaceAll, replaceAll_append, ih, escapeChar, h1, h2, h3, h4]
            · simp [replaceAll, replaceAll_append, ih, escapeChar, h1, h2, h3, h4, h5]

theorem escapeHtml_data (s : String) : (escapeHtml s).data = s.data.flatMap escapeChar := by
  unfold escapeHtml
  by_cases h : s = ""
  · subst h
    rfl
  · rw [if_neg h]
    exact escapeHtml_chain s.data

theorem escapeHtml_no_raw (s : String) {c : Char}
    (hc : c = '<' ∨ c = '>' ∨ c = '"' ∨ c = Char.ofNat 39) :
    c ∉ (escapeHtml s).data := by
  rw [escapeHtml_data]
  intro hmem
  obtain ⟨a, _, ha⟩ := List.mem_flatMap.mp hmem
  unfold escapeChar at ha
  split_ifs at ha with h1 h2 h3 h4 h5
  · rcases hc with rfl | rfl | rfl | rfl <;> revert ha <;> decide
  · rcases hc with rfl | rfl | rfl | rfl <;> revert ha <;> decide
  · rcases hc with rfl | rfl | rfl | rfl <;> revert ha <;> decide
  · rcases hc with rfl | rfl | rfl | rfl <;> revert ha <;> decide
  · rcases hc with rfl | rfl | rfl | rfl <;> revert ha <;> decide
  · simp at ha
    subst ha
    rcases hc with rfl | rfl | rfl | rfl <;> simp_all

theorem escapeHtml_entity {s : String} {c : Char} (h : c ∈ s.data) :
    escapeChar c <:+: (escapeHtml s).data := by
  rw [escapeHtml_data]
  obtain ⟨u, v, huv⟩ := List.append_of_mem h
  rw [huv, List.flatMap_append, List.flatMap_cons]
  exact ⟨u.flatMap escapeChar, v.flatMap escapeChar, by simp⟩

theorem escapeHtml_count_amp (s : String) :
    (escapeHtml s).data.count '&' = s.data.countP isEscapedChar := by
  rw [escapeHtml_data]
  induction s.data with
  | nil => rfl
  | cons a t ih =>
    rw [List.flatMap_cons, List.count_append, ih, List.countP_cons]
    have hone : (escapeChar a).count '&' = if isEscapedChar a = true then 1 else 0 := by
      unfold escapeChar isEscapedChar
      split_ifs with h1 h2 h3 h4 h5 <;> simp_all [List.count_cons]
    rw [hone]
    cases hsplit : isEscapedChar a <;> simp [hsplit] <;> omega

theorem strInfix_foldl {x acc : String} (l : List String) (h : StrInfix x acc) :
    StrInfix x (l.foldl (fun r s => r ++ s) acc) := by
  induction l generalizing acc with
  | nil => exact h
  | cons a t ih => exact ih (h.appendRight a)

theorem strInfix_foldl_of_mem {x : String} {l : List String} (h : x ∈ l) (acc : String) :
    StrInfix x (l.foldl (fun r s => r ++ s) acc) := by
  induction l generalizing acc with
  | nil => cases h
  | cons a t ih =>
    rcases List.mem_cons.mp h with rfl | hmem
    · exact strInfix_foldl t ((StrInfix.rfl x).appendLeft acc)
    · exact ih hmem (acc ++ a)

theorem strInfix_join_of_mem {x : String} {l : List String} (h : x ∈ l) :
    StrInfix x (String.join l) :=
  strInfix_foldl_of_mem h ""

theorem strInfix_joinSep_head (sep : String) (x : String) (rest : List String) :
    StrInfix x (VariantA.joinSep sep (x :: rest)) := by
  cases rest with
  | nil => exact StrInfix.rfl x
  | cons b t =>
    show StrInfix x (x ++ sep ++ VariantA.joinSep sep (b :: t))
    exact (((StrInfix.rfl x).appendRight sep).appendRight _)

namespace VariantA

/-- The label panel as the ordered list of its segments (template text and
interpolated values); concatenated in order they are exactly `labelBlock`. -/
def labelBlockSegments (now : JsDate) (order : Order) : List String :=
  [ "
    <div class=\"label\">
      <!-- Header with Logo/Company -->
      <div class=\"header\">
        <div class=\"company-name\">SHIP TO</div>
        <div class=\"order-info\">
          <div class=\"order-number\">"
  , escapeHtml order.name
  , "</div>
          <div class=\"order-date\">"
  , toLocaleDateStringEnUS now
  , "</div>
        </div>
      </div>

      <!-- Main Shipping Address -->
      <div class=\"address-block\">
        <div class=\"recipient-name\">"
  , escapeHtml (jsOr order.shippingAddress.name ("N/A"))
  , "</div>
        "
  , (if order.shippingAddress.company ≠ "" then
      "<div class=\"company\">" ++ escapeHtml order.shippingAddress.company ++ "</div>"
    else "")
  , "
        <div class=\"street\">"
  , escapeHtml order.shippingAddress.address1
  , "</div>
        "
  , (if order.shippingAddress.address2 ≠ "" then
      "<div class=\"street\">" ++ escapeHtml order.shippingAddress.address2 ++ "</div>"
    else "")
  , "
        <div class=\"city-state-zip\">
          "
  , escapeHtml order.shippingAddress.city
  , ", "
  , escapeHtml (jsOr order.shippingAddress.provinceCode order.shippingAddress.province)
  , " "
  , escapeHtml order.shippingAddress.zip
  , "
        </div>
        <div class=\"country\">"
  , escapeHtml order.shippingAddress.country
  , "</div>
        "
  , (if order.shippingAddress.phone ≠ "" then
      "<div class=\"phone\">Tel: " ++ escapeHtml order.shippingAddress.phone ++ "</div>"
    else "")
  , "
      </div>

      <!-- Divider -->
      <div class=\"divider\"></div>

      <!-- Package Contents Summary -->
      <div class=\"contents-section\">
        <div class=\"contents-title\">PACKAGE CONTENTS</div>
        <div class=\"items-list\">
          "
  , itemsHtml order.lineItems
  , "
          "
  , moreItemsHtml order.lineItems
  , "
        </div>
      </div>

      <!-- Footer with Barcode placeholder -->
      <div class=\"footer\">
        <div class=\"barcode-area\">
          <svg class=\"barcode-placeholder\" viewBox=\"0 0 200 40\">
            "
  , generateBarcodeLines order.name
  , "
          </svg>
          <div class=\"barcode-text\">"
  , escapeHtml order.name
  , "</div>
        </div>
      </div>
    </div>
  " ]

theorem labelBlock_eq_join (now : JsDate) (order : Order) :
    labelBlock now order = String.join (labelBlockSegments now order) := by
  simp [labelBlock, labelBlockSegments, String.join]

/-- The document as the ordered list of its segments. -/
def labelDocumentSegments (now : JsDate) (order : Order) (copiesN : Nat) : List String :=
  [docHead, escapeHtml order.name, docStyle1, docStyle2, docStyle3,
    labelsHtml now order copiesN, docTail]

theorem labelDocument_eq_join (now : JsDate) (order : Order) (copiesN : Nat) :
    labelDocument now order copiesN = String.join (labelDocumentSegments now order copiesN) := by
  simp [labelDocument, labelDocumentSegments, String.join]

end VariantA

namespace VariantB

/-- The variant-B document as the ordered list of its segments. -/
def docSegments (now : JsDate) (logoBase64 : String) (order : Order) : List String :=
  [docHead, escapeHtml order.name, docStyle1, docStyle2,
    escapeHtml (toUpperCaseJS (firstNameOf order.shippingAddress)),
    docLogoLead, logoBase64, docDateLead, toLocaleDateStringEnUS now,
    docOrderLead, escapeHtml order.name, docTail]

theorem generateThermalLabelHtml_eq_join (now : JsDate) (logoBase64 : String) (order : Order) :
    generateThermalLabelHtml now logoBase64 order
      = String.join (docSegments now logoBase64 order) := by
  simp [generateThermalLabelHtml, docSegments, String.join]

end VariantB

theorem barcodeLinesFrom_length (cs : List Char) (x : Nat) :
    (VariantA.barcodeLinesFrom cs x).length = cs.length := by
  induction cs generalizing x with
  | nil => rfl
  | cons c t ih => simp [VariantA.barcodeLinesFrom, ih]

theorem barcodeLinesFrom_get (cs : List Char) (x k : Nat) :
    (VariantA.barcodeLinesFrom cs x)[k]?
      = (cs[k]?).map (fun c =>
          VariantA.rectLine (x + ((cs.take k).map (fun c2 => VariantA.barWidth c2 + 2)).sum)
            (VariantA.barWidth c)) := by
  induction cs generalizing x k with
  | nil => simp [VariantA.barcodeLinesFrom]
  | cons c t ih =>
    cases k with
    | zero => simp [VariantA.barcodeLinesFrom]
    | succ k2 =>
      simp only [VariantA.barcodeLinesFrom, List.getElem?_cons_succ, ih,
        List.take_succ_cons, List.map_cons, List.sum_cons, Nat.add_assoc]

/-- C6: in variant A the barcode SVG has exactly one `<rect/>` per
alphanumeric character of the order name (other characters stripped first);
the k-th bar has width `charCode % 3 + 1`, `y = 5`, `height = 30`, and its
x position starts at 10 and advances by `width + 2` per bar (so bar k sits
at `10 + sum of (width+2) over the previous bars`); `"AB1"` yields 3 bars
and `"A-B"` yields 2. -/
theorem C6_barcode_geometry (text : String) :
    ((VariantA.barcodeLinesFrom (text.data.filter isAlnumAscii) 10).length
      = (text.data.filter isAlnumAscii).length) ∧
    (∀ k, (VariantA.barcodeLinesFrom (text.data.filter isAlnumAscii) 10)[k]?
      = ((text.data.filter isAlnumAscii)[k]?).map (fun c =>
          VariantA.rectLine
            (10 + (((text.data.filter isAlnumAscii).take k).map
              (fun c2 => VariantA.barWidth c2 + 2)).sum)
            (VariantA.barWidth c))) ∧
    (text ≠ "" → VariantA.generateBarcodeLines text
      = String.join (VariantA.barcodeLinesFrom (text.data.filter isAlnumAscii) 10)) ∧
    (∀ x w, VariantA.rectLine x w
      = "<rect x=\"" ++ toString x ++ "\" y=\"5\" width=\"" ++ toString w ++
          "\" height=\"30\" fill=\"black\"/>") ∧
    (VariantA.barcodeLinesFrom (("AB1").data.filter isAlnumAscii) 10).length = 3 ∧
    (VariantA.barcodeLinesFrom (("A-B").data.filter isAlnumAscii) 10).length = 2 := by
  refine ⟨barcodeLinesFrom_length _ 10, fun k => barcodeLinesFrom_get _ 10 k, ?_, ?_, ?_, ?_⟩
  · intro h
    simp [VariantA.generateBarcodeLines, h]
  · intro x w
    rfl
  · decide
  · decide

theorem C6_barcode_geometry_witness :
    (VariantA.barcodeLinesFrom (("AB1").data.filter isAlnumAscii) 10).length = 3 ∧
    (VariantA.barcodeLinesFrom (("AB1").data.filter isAlnumAscii) 10)[1]?
      = some (VariantA.rectLine 15 1) ∧
    VariantA.generateBarcodeLines ("AB1")
      = String.join (VariantA.barcodeLinesFrom (("AB1").data.filter isAlnumAscii) 10) := by
  refine ⟨(C6_barcode_geometry ("AB1")).2.2.2.2.1, ?_, (C6_barcode_geometry ("AB1")).2.2.1 (by decide)⟩
  rw [(C6_barcode_geometry ("AB1")).2.1 1]
  decide

/-- C10: in variant A, a line item whose `quantity` is present but falsy
(`0`, `""`, `null`, `false`) renders as quantity `1`, exactly as when
`quantity` is absent (`undefined`): `item.quantity || 1` treats all falsy
quantities alike. -/
theorem C10_falsy_quantity (item : LineItem) (h : item.quantity.truthy = false) :
    VariantA.qtyDisplayed item = "1" ∧
    VariantA.qtyDisplayed item = VariantA.qtyDisplayed { item with quantity := JsVal.undef } ∧
    VariantA.itemRowHtml item = VariantA.itemRowHtml { item with quantity := JsVal.undef } := by
  have h1 : VariantA.qtyDisplayed item = "1" := by
    simp [VariantA.qtyDisplayed, h]
  have h2 : VariantA.qtyDisplayed { item with quantity := JsVal.undef } = "1" := by
    simp [VariantA.qtyDisplayed, JsVal.truthy]
  refine ⟨h1, by rw [h1, h2], ?_⟩
  simp [VariantA.itemRowHtml, VariantA.itemDisplayName, h1, h2]

theorem C10_falsy_quantity_witness :
    VariantA.qtyDisplayed { title := ("T"), name := (""), quantity := JsVal.num 0 } = "1" ∧
    VariantA.qtyDisplayed { title := ("T"), name := (""), quantity := JsVal.num 0 }
      = VariantA.qtyDisplayed { title := ("T"), name := (""), quantity := JsVal.undef } ∧
    VariantA.itemRowHtml { title := ("T"), name := (""), quantity := JsVal.num 0 }
      = VariantA.itemRowHtml { title := ("T"), name := (""), quantity := JsVal.undef } :=
  C10_falsy_quantity { title := ("T"), name := (""), quantity := JsVal.num 0 } (by decide)

/-- C9: both JSON parses sit inside one `try/catch`, the address first, so
the fallbacks are coupled: if `shippingAddress` is present and fails to
parse, `lineItems` is never parsed (the result does not depend on the item
parser at all) and both fall back to `{}` and `[]`; if the address parses
and `lineItems` then fails, the already-parsed address is kept. -/
theorem C9_parse_coupling (parseAddress : String → Option Address)
    (parseItems parseItems2 : String → Option (List LineItem))
    (rawAddress rawItems : Option String) :
    (∀ s, presentStr rawAddress = some s → parseAddress s = none →
      parseQueryParams parseAddress parseItems rawAddress rawItems = ({}, []) ∧
      parseQueryParams parseAddress parseItems rawAddress rawItems
        = parseQueryParams parseAddress parseItems2 rawAddress rawItems) ∧
    (∀ s addr t, presentStr rawAddress = some s → parseAddress s = some addr →
      presentStr rawItems = some t → parseItems t = none →
      parseQueryParams parseAddress parseItems rawAddress rawItems = (addr, [])) := by
  constructor
  · intro s hs hfail
    refine ⟨?_, ?_⟩ <;> simp [parseQueryParams, hs, hfail]
  · intro s addr t hs hok ht hfail
    simp [parseQueryParams, hs, hok, ht, hfail]

theorem C9_parse_coupling_witness :
    (parseQueryParams (fun _ => none)
      (fun _ => some ([{ title := ("W"), name := (""), quantity := JsVal.undef }]))
      (some ("badjson")) (some ("goodjson")) = ({}, []) ∧
    parseQueryParams (fun _ => none)
      (fun _ => some ([{ title := ("W"), name := (""), quantity := JsVal.undef }]))
      (some ("badjson")) (some ("goodjson"))
      = parseQueryParams (fun _ => none) (fun _ => none)
          (some ("badjson")) (some ("goodjson"))) ∧
    parseQueryParams (fun _ => some { name := ("Jane") }) (fun _ => none)
      (some ("goodaddr")) (some ("baditems"))
      = ({ name := ("Jane") }, []) := by
  constructor
  · exact (C9_parse_coupling (fun _ => none)
      (fun _ => some ([{ title := ("W"), name := (""), quantity := JsVal.undef }]))
      (fun _ => none) (some ("badjson")) (some ("goodjson"))).1 ("badjson") (by decide) rfl
  · exact (C9_parse_coupling (fun _ => some { name := ("Jane") }) (fun _ => none)
      (fun _ => none) (some ("goodaddr")) (some ("baditems"))).2
      ("goodaddr") { name := ("Jane") } ("baditems") (by decide) rfl (by decide) rfl

/-- The order record the handlers build (identical in both variants). -/
def handlerOrder (parseAddress : String → Option Address)
    (parseItems : String → Option (List LineItem)) (q : Query) : Order :=
  { id := q.orderId
    name := orderNameOf q.orderName
    shippingAddress := (parseQueryParams parseAddress parseItems q.shippingAddress q.lineItems).1
    lineItems := (parseQueryParams parseAddress parseItems q.shippingAddress q.lineItems).2 }

theorem printHandlerA_eq (now : JsDate) (parseAddress : String → Option Address)
    (parseItems : String → Option (List LineItem)) (q : Query) :
    VariantA.printHandler now parseAddress parseItems q
      = (VariantA.generateThermalLabelHtml now (handlerOrder parseAddress parseItems q)
          (copiesFromLabelCount q.labelCount)).map
        (fun html =>
          { status := 200
            contentType := "text/html"
            accessControlAllowOrigin := "*"
            body := html }) := rfl

theorem printHandlerB_eq (now : JsDate) (logoBase64 : String)
    (parseAddress : String → Option Address)
    (parseItems : String → Option (List LineItem)) (q : Query) :
    VariantB.printHandler now logoBase64 parseAddress parseItems q
      = { status := 200
          contentType := "text/html"
          accessControlAllowOrigin := "*"
          body := VariantB.generateThermalLabelHtml now logoBase64
            (handlerOrder parseAddress parseItems q) } := rfl

/-- C5: variant A renders one `"{quantity}x {title}"` row for each of the
first `min(length, 5)` line items (`slice(0, 5)`), each row appearing in the
items block; with more than 5 items the note slot renders exactly the one
string `"+ N more items"` with `N = length - 5`, and with 5 or fewer items
the note slot renders `""` (no note). -/
theorem C5_item_rows (lineItems : List LineItem) (now : JsDate) (order : Order) :
    ((lineItems.take 5).map VariantA.itemRowHtml).length = min lineItems.length 5 ∧
    VariantA.itemsHtml lineItems = String.join ((lineItems.take 5).map VariantA.itemRowHtml) ∧
    (∀ item ∈ lineItems.take 5,
      StrInfix (VariantA.itemRowHtml item) (VariantA.itemsHtml lineItems)) ∧
    (∀ item, VariantA.itemRowHtml item
      = "\n    <div class=\"item-row\">\n      <span class=\"item-qty\">" ++
          VariantA.qtyDisplayed item ++
          "x</span>\n      <span class=\"item-name\">" ++
          escapeHtml (VariantA.itemDisplayName item) ++
          "</span>\n    </div>\n  ") ∧
    (5 < lineItems.length →
      VariantA.moreItemsHtml lineItems
        = "<div class=\"more-items\">+ " ++ toString ((lineItems.length : Int) - 5) ++
            " more items</div>") ∧
    (lineItems.length ≤ 5 → VariantA.moreItemsHtml lineItems = "") ∧
    StrInfix (VariantA.itemsHtml order.lineItems) (VariantA.labelBlock now order) ∧
    StrInfix (VariantA.moreItemsHtml order.lineItems) (VariantA.labelBlock now order) := by
  refine ⟨?_, rfl, ?_, fun _ => rfl, ?_, ?_, ?_, ?_⟩
  · rw [List.length_map, List.length_take, Nat.min_comm]
  · intro item hmem
    exact strInfix_join_of_mem (List.mem_map_of_mem VariantA.itemRowHtml hmem)
  · intro h
    unfold VariantA.moreItemsHtml VariantA.moreItemsCount
    rw [if_pos (by omega)]
  · intro h
    unfold VariantA.moreItemsHtml VariantA.moreItemsCount
    rw [if_neg (by omega)]
  · rw [VariantA.labelBlock_eq_join]
    exact strInfix_join_of_mem (by simp [VariantA.labelBlockSegments])
  · rw [VariantA.labelBlock_eq_join]
    exact strInfix_join_of_mem (by simp [VariantA.labelBlockSegments])

theorem C5_item_rows_witness :
    (((List.replicate 7 ({ title := ("T"), name := (""), quantity := JsVal.num 2 } : LineItem)).take 5).map
        VariantA.itemRowHtml).length = min 7 5 ∧
    VariantA.moreItemsHtml
        (List.replicate 7 ({ title := ("T"), name := (""), quantity := JsVal.num 2 } : LineItem))
      = "<div class=\"more-items\">+ " ++
          toString (((List.replicate 7 ({ title := ("T"), name := (""), quantity := JsVal.num 2 } : LineItem)).length : Int) - 5)
          ++ " more items</div>" ∧
    VariantA.moreItemsHtml
        (List.replicate 3 ({ title := ("T"), name := (""), quantity := JsVal.num 2 } : LineItem)) = "" := by
  refine ⟨?_, ?_, ?_⟩
  · have h := (C5_item_rows
      (List.replicate 7 ({ title := ("T"), name := (""), quantity := JsVal.num 2 } : LineItem))
      ⟨2026, 9, 11⟩ {}).1
    simpa using h
  · exact (C5_item_rows
      (List.replicate 7 ({ title := ("T"), name := (""), quantity := JsVal.num 2 } : LineItem))
      ⟨2026, 9, 11⟩ {}).2.2.2.2.1 (by decide)
  · exact (C5_item_rows
      (List.replicate 3 ({ title := ("T"), name := (""), quantity := JsVal.num 2 } : LineItem))
      ⟨2026, 9, 11⟩ {}).2.2.2.2.2.1 (by decide)

/-- C4: in variant A the copy count handed to the renderer is
`parseInt(labelCount) || 1`: the integer coercion of `labelCount` when that
is a nonzero number, and `1` when `labelCount` is absent, is `"0"` (coerces
to the falsy `0`), or has no integer coercion (`NaN`); in all those
fallback cases the handler responds with a document whose label list is
exactly one label block. -/
theorem C4_copy_count :
    (∀ s n, parseIntJS s = some n → n ≠ 0 → copiesFromLabelCount (some s) = n) ∧
    copiesFromLabelCount none = 1 ∧
    copiesFromLabelCount (some ("0")) = 1 ∧
    (∀ s, parseIntJS s = none → copiesFromLabelCount (some s) = 1) ∧
    (∀ now parseAddress parseItems q, copiesFromLabelCount q.labelCount = 1 →
      VariantA.printHandler now parseAddress parseItems q
        = .ok { status := 200
                contentType := "text/html"
                accessControlAllowOrigin := "*"
                body := VariantA.labelDocument now (handlerOrder parseAddress parseItems q) 1 }) ∧
    (∀ now order, VariantA.labelsHtml now order 1 = VariantA.labelBlock now order ∧
      (List.replicate 1 (VariantA.labelBlock now order)).length = 1) := by
  refine ⟨?_, rfl, by decide, ?_, ?_, ?_⟩
  · intro s n hp hn
    simp [copiesFromLabelCount, hp, hn]
  · intro s hp
    simp [copiesFromLabelCount, hp]
  · intro now parseAddress parseItems q h
    rw [printHandlerA_eq, h]
    rfl
  · intro now order
    exact ⟨rfl, rfl⟩

theorem C4_copy_count_witness :
    copiesFromLabelCount (some ("7")) = 7 ∧
    copiesFromLabelCount (some ("0")) = 1 ∧
    copiesFromLabelCount (some ("abc")) = 1 ∧
    VariantA.printHandler ⟨2026, 9, 11⟩ (fun _ => none) (fun _ => none) {}
      = .ok { status := 200
              contentType := "text/html"
              accessControlAllowOrigin := "*"
              body := VariantA.labelDocument ⟨2026, 9, 11⟩
                (handlerOrder (fun _ => none) (fun _ => none) {}) 1 } := by
  refine ⟨C4_copy_count.1 ("7") 7 (by decide) (by decide), C4_copy_count.2.2.1,
    C4_copy_count.2.2.2.1 ("abc") (by decide), ?_⟩
  exact C4_copy_count.2.2.2.2.1 ⟨2026, 9, 11⟩ (fun _ => none) (fun _ => none) {} (by decide)

/-- A sample parsed order used for concrete corroborating computations. -/
def sampleOrderB : Order :=
  { name := "#1001"
    shippingAddress := { name := "Jane Doe", city := "Ottawa" } }

/-- C3: variant B renders exactly one label panel for every order and every
value of `labelCount` (absent, `0`, negative, non-numeric or positive): the
handler destructures `labelCount` but never uses it, so the response is
literally independent of it, the renderer takes no copy count, and the
rendered document contains a single `class="label"` panel (checked by an
occurrence count on a sample rendering). -/
theorem C3_variantB_single_label :
    (∀ now logoBase64 parseAddress parseItems q v,
      VariantB.printHandler now logoBase64 parseAddress parseItems { q with labelCount := v }
        = VariantB.printHandler now logoBase64 parseAddress parseItems q) ∧
    (∀ now logoBase64 parseAddress parseItems q,
      (VariantB.printHandler now logoBase64 parseAddress parseItems q).status = 200 ∧
      (VariantB.printHandler now logoBase64 parseAddress parseItems q).body
        = VariantB.generateThermalLabelHtml now logoBase64
            (handlerOrder parseAddress parseItems q)) ∧
    countStr (VariantB.generateThermalLabelHtml ⟨2026, 9, 11⟩ ("") sampleOrderB)
      ("class=\"label\"") = 1 := by
  refine ⟨fun now logo pa pi q v => rfl, fun now logo pa pi q => ⟨rfl, rfl⟩, ?_⟩
  show countCL (VariantB.generateThermalLabelHtml ⟨2026, 9, 11⟩ ("") sampleOrderB).data
    ("class=\"label\"").data = 1
  simp only [VariantB.generateThermalLabelHtml, VariantB.docStyle1, VariantB.docTail,
    String.data_append, List.append_assoc]
  repeat rw [countCL_append_of_window (by decide) (by decide)]
  decide

theorem StrInfix.trans {x y z : String} (h1 : StrInfix x y) (h2 : StrInfix y z) :
    StrInfix x z := List.IsInfix.trans h1 h2

/-- C8 (amended): each renderer is deterministic in the order record, the
copy count, the formatted current date and (variant B) the process-wide
logo string: fixing those fixes the output string.  It is not a pure
function of the order and copy count alone, because the output embeds the
current date (and, in variant B, the logo). -/
theorem C8_renderer_determinism :
    (∀ now now2 order copies,
      toLocaleDateStringEnUS now = toLocaleDateStringEnUS now2 →
      VariantA.generateThermalLabelHtml now order copies
        = VariantA.generateThermalLabelHtml now2 order copies) ∧
    (∀ now now2 logoBase64 order,
      toLocaleDateStringEnUS now = toLocaleDateStringEnUS now2 →
      VariantB.generateThermalLabelHtml now logoBase64 order
        = VariantB.generateThermalLabelHtml now2 logoBase64 order) := by
  constructor
  · intro now now2 order copies h
    simp only [VariantA.generateThermalLabelHtml, VariantA.labelDocument,
      VariantA.labelsHtml, VariantA.labelBlock, h]
  · intro now now2 logoBase64 order h
    simp only [VariantB.generateThermalLabelHtml, h]

theorem C8_renderer_determinism_witness :
    VariantA.generateThermalLabelHtml ⟨2026, 12, 1⟩ {} 1
      = VariantA.generateThermalLabelHtml ⟨2026, 13, 1⟩ {} 1 ∧
    VariantB.generateThermalLabelHtml ⟨2026, 12, 1⟩ ("") {}
      = VariantB.generateThermalLabelHtml ⟨2026, 13, 1⟩ ("") {} :=
  ⟨C8_renderer_determinism.1 ⟨2026, 12, 1⟩ ⟨2026, 13, 1⟩ {} 1 (by decide),
   C8_renderer_determinism.2 ⟨2026, 12, 1⟩ ⟨2026, 13, 1⟩ ("") {} (by decide)⟩

theorem C8_counterexample :
    VariantB.generateThermalLabelHtml ⟨2026, 0, 1⟩ ("") {}
      ≠ VariantB.generateThermalLabelHtml ⟨2026, 0, 11⟩ ("") {} ∧
    VariantB.generateThermalLabelHtml ⟨2026, 0, 1⟩ ("") {}
      ≠ VariantB.generateThermalLabelHtml ⟨2026, 0, 1⟩ ("QUJDRA==") {} := by
  constructor
  · intro h
    have h2 := congrArg (fun s => s.data.length) h
    simp only [VariantB.generateThermalLabelHtml, VariantB.docStyle1, VariantB.docTail,
      String.data_append, List.length_append] at h2
    exact absurd h2 (by decide)
  · intro h
    have h2 := congrArg (fun s => s.data.length) h
    simp only [VariantB.generateThermalLabelHtml, VariantB.docStyle1, VariantB.docTail,
      String.data_append, List.length_append] at h2
    exact absurd h2 (by decide)

/-- C2 (amended): on a JSON parse failure the handler falls back without
failing the request, but the fallbacks are positional: a failing
`shippingAddress` parse leaves both defaults (`{}` and `[]`), while a
failing `lineItems` parse after a successful address parse keeps the parsed
address.  The variant A response is `200 text/html` whenever the coerced
copy count `parseInt(labelCount) || 1` lies in `[0, 2^32)`; a `labelCount`
coercing to a negative integer (or one at least `2^32`) makes
`Array(copies)` throw, so the handler does not produce a 200 response.
Variant B always responds 200. -/
theorem C2_fallback_and_status :
    (∀ parseAddress parseItems q s,
      presentStr q.shippingAddress = some s → parseAddress s = none →
      handlerOrder parseAddress parseItems q
        = { id := q.orderId, name := orderNameOf q.orderName,
            shippingAddress := {}, lineItems := [] }) ∧
    (∀ parseAddress parseItems q s addr t,
      presentStr q.shippingAddress = some s → parseAddress s = some addr →
      presentStr q.lineItems = some t → parseItems t = none →
      handlerOrder parseAddress parseItems q
        = { id := q.orderId, name := orderNameOf q.orderName,
            shippingAddress := addr, lineItems := [] }) ∧
    (∀ now parseAddress parseItems q,
      0 ≤ copiesFromLabelCount q.labelCount →
      copiesFromLabelCount q.labelCount < 4294967296 →
      VariantA.printHandler now parseAddress parseItems q
        = .ok { status := 200
                contentType := "text/html"
                accessControlAllowOrigin := "*"
                body := VariantA.labelDocument now (handlerOrder parseAddress parseItems q)
                  (copiesFromLabelCount q.labelCount).toNat }) ∧
    (∀ now logoBase64 parseAddress parseItems q,
      (VariantB.printHandler now logoBase64 parseAddress parseItems q).status = 200) := by
  refine ⟨?_, ?_, ?_, fun now logoBase64 pa pi q => rfl⟩
  · intro parseAddress parseItems q s hs hfail
    simp [handlerOrder, parseQueryParams, hs, hfail]
  · intro parseAddress parseItems q s addr t hs hok ht hfail
    simp [handlerOrder, parseQueryParams, hs, hok, ht, hfail]
  · intro now parseAddress parseItems q h0 h1
    rw [printHandlerA_eq]
    unfold VariantA.generateThermalLabelHtml
    rw [if_pos ⟨h0, h1⟩]
    rfl

theorem C2_fallback_and_status_witness :
    handlerOrder (fun _ => none) (fun _ => none)
        { shippingAddress := some ("notjson") }
      = { id := none, name := orderNameOf none, shippingAddress := {}, lineItems := [] } ∧
    VariantA.printHandler ⟨2026, 9, 11⟩ (fun _ => none) (fun _ => none)
        { shippingAddress := some ("notjson") }
      = .ok { status := 200
              contentType := "text/html"
              accessControlAllowOrigin := "*"
              body := VariantA.labelDocument ⟨2026, 9, 11⟩
                (handlerOrder (fun _ => none) (fun _ => none)
                  { shippingAddress := some ("notjson") }) 1 } :=
  ⟨C2_fallback_and_status.1 (fun _ => none) (fun _ => none)
      { shippingAddress := some ("notjson") } ("notjson") (by decide) rfl,
   C2_fallback_and_status.2.2.1 ⟨2026, 9, 11⟩ (fun _ => none) (fun _ => none)
      { shippingAddress := some ("notjson") } (by decide) (by decide)⟩

theorem C2_counterexample :
    VariantA.printHandler ⟨2026, 9, 11⟩ (fun _ => none) (fun _ => none)
      { labelCount := some ("-1"), shippingAddress := some ("notjson") }
      = .error ("Invalid array length") := by
  rw [printHandlerA_eq]
  rfl

theorem strInfix_segment_block {now : JsDate} {order : Order} {x : String}
    (hx : x ∈ VariantA.labelBlockSegments now order) :
    StrInfix x (VariantA.labelBlock now order) := by
  rw [VariantA.labelBlock_eq_join]
  exact strInfix_join_of_mem hx

theorem strInfix_labelBlock_doc {x : String} (now : JsDate) (order : Order) (k : Nat)
    (h : StrInfix x (VariantA.labelBlock now order)) :
    StrInfix x (VariantA.labelDocument now order (k + 1)) := by
  have h1 : StrInfix (VariantA.labelBlock now order) (VariantA.labelsHtml now order (k + 1)) := by
    unfold VariantA.labelsHtml
    rw [List.replicate_succ]
    exact strInfix_joinSep_head _ _ _
  have h2 : StrInfix (VariantA.labelsHtml now order (k + 1))
      (VariantA.labelDocument now order (k + 1)) := by
    rw [VariantA.labelDocument_eq_join]
    exact strInfix_join_of_mem (by simp [VariantA.labelDocumentSegments])
  exact (h.trans h1).trans h2

theorem StrInfix.mem_of_mem {pat s : String} (h : StrInfix pat s) {c : Char}
    (hc : c ∈ pat.data) : c ∈ s.data :=
  List.IsInfix.subset h hc

/-- C1 (amended): `escapeHtml` turns each of the five special characters
into its entity — if the input contains the character, the output contains
the entity, the four bracket/quote characters never survive into the
output, and every ampersand in the output is the head of an inserted
entity (their count equals the number of escaped characters) — and every
interpolated user-supplied string field of both variants passes through
`escapeHtml` and appears escaped in the rendered document, with one
exception: variant A interpolates `item.quantity` raw (`${item.quantity || 1}`),
and numeric copy counts, the date and the barcode geometry are internally
computed. -/
theorem C1_escaping :
    (∀ s : String,
      ('&' ∈ s.data → "&amp;".data <:+: (escapeHtml s).data) ∧
      ('<' ∈ s.data → "&lt;".data <:+: (escapeHtml s).data) ∧
      ('>' ∈ s.data → "&gt;".data <:+: (escapeHtml s).data) ∧
      ('"' ∈ s.data → "&quot;".data <:+: (escapeHtml s).data) ∧
      (Char.ofNat 39 ∈ s.data → "&#039;".data <:+: (escapeHtml s).data) ∧
      '<' ∉ (escapeHtml s).data ∧ '>' ∉ (escapeHtml s).data ∧
      '"' ∉ (escapeHtml s).data ∧ Char.ofNat 39 ∉ (escapeHtml s).data ∧
      (escapeHtml s).data.count '&' = s.data.countP isEscapedChar) ∧
    (∀ now order k,
      StrInfix (escapeHtml (Order.name order)) (VariantA.labelDocument now order (k + 1)) ∧
      StrInfix (escapeHtml (jsOr order.shippingAddress.name ("N/A")))
        (VariantA.labelDocument now order (k + 1)) ∧
      StrInfix (escapeHtml order.shippingAddress.address1)
        (VariantA.labelDocument now order (k + 1)) ∧
      StrInfix (escapeHtml order.shippingAddress.city)
        (VariantA.labelDocument now order (k + 1)) ∧
      StrInfix (escapeHtml (jsOr order.shippingAddress.provinceCode
          order.shippingAddress.province))
        (VariantA.labelDocument now order (k + 1)) ∧
      StrInfix (escapeHtml order.shippingAddress.zip)
        (VariantA.labelDocument now order (k + 1)) ∧
      StrInfix (escapeHtml order.shippingAddress.country)
        (VariantA.labelDocument now order (k + 1)) ∧
      (order.shippingAddress.company ≠ "" →
        StrInfix (escapeHtml order.shippingAddress.company)
          (VariantA.labelDocument now order (k + 1))) ∧
      (order.shippingAddress.address2 ≠ "" →
        StrInfix (escapeHtml order.shippingAddress.address2)
          (VariantA.labelDocument now order (k + 1))) ∧
      (order.shippingAddress.phone ≠ "" →
        StrInfix (escapeHtml order.shippingAddress.phone)
          (VariantA.labelDocument now order (k + 1))) ∧
      (∀ item ∈ order.lineItems.take 5,
        StrInfix (escapeHtml (VariantA.itemDisplayName item))
          (VariantA.labelDocument now order (k + 1)))) ∧
    (∀ now logoBase64 order,
      StrInfix (escapeHtml (Order.name order))
        (VariantB.generateThermalLabelHtml now logoBase64 order) ∧
      StrInfix (escapeHtml (VariantB.toUpperCaseJS (VariantB.firstNameOf order.shippingAddress)))
        (VariantB.generateThermalLabelHtml now logoBase64 order)) ∧
    (∀ item, item.quantity.truthy = true →
      VariantA.qtyDisplayed item = item.quantity.toStr) := by
  refine ⟨?_, ?_, ?_, ?_⟩
  · intro s
    refine ⟨?_, ?_, ?_, ?_, ?_, ?_, ?_, ?_, ?_, escapeHtml_count_amp s⟩
    · intro h
      have := escapeHtml_entity (s := s) (c := '&') h
      simpa [escapeChar] using this
    · intro h
      have := escapeHtml_entity (s := s) (c := '<') h
      simpa [escapeChar] using this
    · intro h
      have := escapeHtml_entity (s := s) (c := '>') h
      simpa [escapeChar] using this
    · intro h
      have := escapeHtml_entity (s := s) (c := '"') h
      simpa [escapeChar] using this
    · intro h
      have := escapeHtml_entity (s := s) (c := Char.ofNat 39) h
      simpa [escapeChar] using this
    · exact escapeHtml_no_raw s (Or.inl rfl)
    · exact escapeHtml_no_raw s (Or.inr (Or.inl rfl))
    · exact escapeHtml_no_raw s (Or.inr (Or.inr (Or.inl rfl)))
    · exact escapeHtml_no_raw s (Or.inr (Or.inr (Or.inr rfl)))
  · intro now order k
    refine ⟨?_, ?_, ?_, ?_, ?_, ?_, ?_, ?_, ?_, ?_, ?_⟩
    · exact strInfix_labelBlock_doc now order k
        (strInfix_segment_block (by simp [VariantA.labelBlockSegments]))
    · exact strInfix_labelBlock_doc now order k
        (strInfix_segment_block (by simp [VariantA.labelBlockSegments]))
    · exact strInfix_labelBlock_doc now order k
        (strInfix_segment_block (by simp [VariantA.labelBlockSegments]))
    · exact strInfix_labelBlock_doc now order k
        (strInfix_segment_block (by simp [VariantA.labelBlockSegments]))
    · exact strInfix_labelBlock_doc now order k
        (strInfix_segment_block (by simp [VariantA.labelBlockSegments]))
    · exact strInfix_labelBlock_doc now order k
        (strInfix_segment_block (by simp [VariantA.labelBlockSegments]))
    · exact strInfix_labelBlock_doc now order k
        (strInfix_segment_block (by simp [VariantA.labelBlockSegments]))
    · intro h
      refine strInfix_labelBlock_doc now order k
        (StrInfix.trans ?_ (strInfix_segment_block (x :=
          if order.shippingAddress.company ≠ "" then
            "<div class=\"company\">" ++ escapeHtml order.shippingAddress.company ++ "</div>"
          else "") (by simp [VariantA.labelBlockSegments])))
      rw [if_pos h]
      exact ((StrInfix.rfl _).appendLeft _).appendRight _
    · intro h
      refine strInfix_labelBlock_doc now order k
        (StrInfix.trans ?_ (strInfix_segment_block (x :=
          if order.shippingAddress.address2 ≠ "" then
            "<div class=\"street\">" ++ escapeHtml order.shippingAddress.address2 ++ "</div>"
          else "") (by simp [VariantA.labelBlockSegments])))
      rw [if_pos h]
      exact ((StrInfix.rfl _).appendLeft _).appendRight _
    · intro h
      refine strInfix_labelBlock_doc now order k
        (StrInfix.trans ?_ (strInfix_segment_block (x :=
          if order.shippingAddress.phone ≠ "" then
            "<div class=\"phone\">Tel: " ++ escapeHtml order.shippingAddress.phone ++ "</div>"
          else "") (by simp [VariantA.labelBlockSegments])))
      rw [if_pos h]
      exact ((StrInfix.rfl _).appendLeft _).appendRight _
    · intro item hmem
      refine strInfix_labelBlock_doc now order k
        (StrInfix.trans ?_ (strInfix_segment_block (x := VariantA.itemsHtml order.lineItems)
          (by simp [VariantA.labelBlockSegments])))
      refine StrInfix.trans ?_
        (strInfix_join_of_mem (List.mem_map_of_mem VariantA.itemRowHtml hmem))
      show StrInfix (escapeHtml (VariantA.itemDisplayName item)) (VariantA.itemRowHtml item)
      unfold VariantA.itemRowHtml
      exact ((StrInfix.rfl _).appendLeft _).appendRight _
  · intro now logoBase64 order
    constructor
    · rw [VariantB.generateThermalLabelHtml_eq_join]
      exact strInfix_join_of_mem (by simp [VariantB.docSegments])
    · rw [VariantB.generateThermalLabelHtml_eq_join]
      exact strInfix_join_of_mem (by simp [VariantB.docSegments])
  · intro item h
    simp [VariantA.qtyDisplayed, h]

theorem C1_escaping_witness :
    ("&lt;".data <:+: (escapeHtml ("a<b")).data) ∧
    '<' ∉ (escapeHtml ("a<b")).data ∧
    (escapeHtml ("a<b")).data.count '&' = ("a<b").data.countP isEscapedChar ∧
    StrInfix (escapeHtml (Order.name { name := ("O<my") }))
      (VariantA.labelDocument ⟨2026, 9, 11⟩ { name := ("O<my") } (0 + 1)) ∧
    StrInfix (escapeHtml (VariantB.toUpperCaseJS (VariantB.firstNameOf
        (Order.shippingAddress { shippingAddress := { name := ("Jo anne") } }))))
      (VariantB.generateThermalLabelHtml ⟨2026, 9, 11⟩ ("")
        { shippingAddress := { name := ("Jo anne") } }) :=
  ⟨(C1_escaping.1 ("a<b")).2.1 (by decide),
   (C1_escaping.1 ("a<b")).2.2.2.2.2.1,
   (C1_escaping.1 ("a<b")).2.2.2.2.2.2.2.2.2,
   (C1_escaping.2.1 ⟨2026, 9, 11⟩ { name := ("O<my") } 0).1,
   (C1_escaping.2.2.1 ⟨2026, 9, 11⟩ ("") { shippingAddress := { name := ("Jo anne") } }).2⟩

/-- The order used to exhibit the `item.quantity` escaping bypass: a line
item whose quantity is the string `"<b>"`. -/
def c1Order : Order :=
  { name := "#1"
    lineItems := [{ title := ("T"), name := (""), quantity := JsVal.str ("<b>") }] }

theorem C1_counterexample :
    VariantA.qtyDisplayed { title := ("T"), name := (""), quantity := JsVal.str ("<b>") }
      = "<b>" ∧
    StrInfix ("<b>x</span>") (VariantA.labelDocument ⟨2026, 9, 11⟩ c1Order 1) ∧
    containsStr (VariantA.labelDocument ⟨2026, 9, 11⟩ c1Order 1) ("&lt;") = false := by
  refine ⟨rfl, ?_, ?_⟩
  · have hrow : StrInfix ("<b>x</span>")
        (VariantA.itemRowHtml { title := ("T"), name := (""), quantity := JsVal.str ("<b>") }) :=
      containsStr_iff.mp (by decide)
    have hitems : StrInfix
        (VariantA.itemRowHtml { title := ("T"), name := (""), quantity := JsVal.str ("<b>") })
        (VariantA.itemsHtml c1Order.lineItems) :=
      strInfix_join_of_mem (by simp [c1Order])
    have hseg : StrInfix (VariantA.itemsHtml c1Order.lineItems)
        (VariantA.labelBlock ⟨2026, 9, 11⟩ c1Order) :=
      strInfix_segment_block (by simp [VariantA.labelBlockSegments])
    exact strInfix_labelBlock_doc ⟨2026, 9, 11⟩ c1Order 0 ((hrow.trans hitems).trans hseg)
  · have hls : VariantA.labelsHtml ⟨2026, 9, 11⟩ c1Order 1
        = VariantA.labelBlock ⟨2026, 9, 11⟩ c1Order := rfl
    have hamp : (VariantA.labelDocument ⟨2026, 9, 11⟩ c1Order 1).data.count '&' = 0 := by
      simp only [VariantA.labelDocument, hls, VariantA.labelBlock, VariantA.docStyle2,
        String.data_append, List.count_append]
      decide
    cases hc : containsStr (VariantA.labelDocument ⟨2026, 9, 11⟩ c1Order 1) ("&lt;") with
    | false => rfl
    | true =>
      have hinf : StrInfix ("&lt;") (VariantA.labelDocument ⟨2026, 9, 11⟩ c1Order 1) :=
        containsStr_iff.mp hc
      have hmem : '&' ∈ (VariantA.labelDocument ⟨2026, 9, 11⟩ c1Order 1).data :=
        hinf.mem_of_mem (by decide)
      rw [List.count_eq_zero] at hamp
      exact absurd hmem hamp

/-- The parsed shipping address of the specification's example request. -/
def c7Address : Address := { name := "Jane Doe", city := "Ottawa" }

/-- The example request
`GET /print?orderName=%231001&labelCount=2&shippingAddress=%7B%22name%22%3A%22Jane%20Doe%22%2C%22city%22%3A%22Ottawa%22%7D`
after the framework's URL decoding. -/
def c7Query : Query :=
  { orderName := some ("#1001")
    labelCount := some ("2")
    shippingAddress := some ("\x7b\"name\":\"Jane Doe\",\"city\":\"Ottawa\"\x7d") }

/-- `JSON.parse ∘ decodeURIComponent` on the example's address parameter. -/
def c7ParseAddress : String → Option Address := fun s =>
  if s = "\x7b\"name\":\"Jane Doe\",\"city\":\"Ottawa\"\x7d" then some c7Address else none

/-- The order record the handler builds for the example request. -/
def c7Order : Order := { name := "#1001", shippingAddress := c7Address }

/-- C7 (amended): the example request yields a 200 response whose body holds
exactly two label panels joined by the page-break marker (the `class="label"`
occurrence count is 2 and the page-break div occurs once), and contains the
escaped `"Jane Doe"` (upper-casing is done by CSS `text-transform`, not in
the markup) and `"Ottawa"`; escaping leaves both values unchanged. -/
theorem C7_example_request :
    VariantA.printHandler ⟨2026, 9, 11⟩ c7ParseAddress (fun _ => none) c7Query
      = .ok { status := 200
              contentType := "text/html"
              accessControlAllowOrigin := "*"
              body := VariantA.labelDocument ⟨2026, 9, 11⟩ c7Order 2 } ∧
    VariantA.labelsHtml ⟨2026, 9, 11⟩ c7Order 2
      = VariantA.labelBlock ⟨2026, 9, 11⟩ c7Order ++ VariantA.pageBreakHtml ++
        VariantA.labelBlock ⟨2026, 9, 11⟩ c7Order ∧
    countStr (VariantA.labelDocument ⟨2026, 9, 11⟩ c7Order 2) ("class=\"label\"") = 2 ∧
    countStr (VariantA.labelDocument ⟨2026, 9, 11⟩ c7Order 2) VariantA.pageBreakHtml = 1 ∧
    StrInfix ("Jane Doe") (VariantA.labelDocument ⟨2026, 9, 11⟩ c7Order 2) ∧
    StrInfix ("Ottawa") (VariantA.labelDocument ⟨2026, 9, 11⟩ c7Order 2) ∧
    escapeHtml ("Jane Doe") = "Jane Doe" ∧
    escapeHtml ("#1001") = "#1001" := by
  have hls : VariantA.labelsHtml ⟨2026, 9, 11⟩ c7Order 2
      = VariantA.labelBlock ⟨2026, 9, 11⟩ c7Order ++ VariantA.pageBreakHtml ++
        VariantA.labelBlock ⟨2026, 9, 11⟩ c7Order := rfl
  refine ⟨?_, hls, ?_, ?_, ?_, ?_, by decide, by decide⟩
  · rw [printHandlerA_eq]
    have horder : handlerOrder c7ParseAddress (fun _ => none) c7Query = c7Order := by decide
    have hcopies : copiesFromLabelCount c7Query.labelCount = 2 := by decide
    rw [horder, hcopies]
    unfold VariantA.generateThermalLabelHtml
    rw [if_pos (by decide)]
    rfl
  · show countCL (VariantA.labelDocument ⟨2026, 9, 11⟩ c7Order 2).data
      ("class=\"label\"").data = 2
    simp only [VariantA.labelDocument, hls, VariantA.labelBlock, VariantA.docStyle2,
      String.data_append, List.append_assoc]
    repeat rw [countCL_append_of_window (by decide) (by decide)]
    decide
  · show countCL (VariantA.labelDocument ⟨2026, 9, 11⟩ c7Order 2).data
      (VariantA.pageBreakHtml).data = 1
    simp only [VariantA.labelDocument, hls, VariantA.labelBlock, VariantA.docStyle2,
      String.data_append, List.append_assoc]
    repeat rw [countCL_append_of_window (by decide) (by decide)]
    decide
  · have h1 : escapeHtml (jsOr c7Order.shippingAddress.name ("N/A")) = "Jane Doe" := by decide
    have h2 : StrInfix (escapeHtml (jsOr c7Order.shippingAddress.name ("N/A")))
        (VariantA.labelBlock ⟨2026, 9, 11⟩ c7Order) :=
      strInfix_segment_block (by simp [VariantA.labelBlockSegments])
    rw [h1] at h2
    exact strInfix_labelBlock_doc ⟨2026, 9, 11⟩ c7Order 1 h2
  · have h1 : escapeHtml (c7Order.shippingAddress.city) = "Ottawa" := by decide
    have h2 : StrInfix (escapeHtml (c7Order.shippingAddress.city))
        (VariantA.labelBlock ⟨2026, 9, 11⟩ c7Order) :=
      strInfix_segment_block (by simp [VariantA.labelBlockSegments])
    rw [h1] at h2
    exact strInfix_labelBlock_doc ⟨2026, 9, 11⟩ c7Order 1 h2

theorem C7_counterexample :
    VariantA.printHandler ⟨2026, 9, 11⟩ c7ParseAddress (fun _ => none) c7Query
      = .ok { status := 200
              contentType := "text/html"
              accessControlAllowOrigin := "*"
              body := VariantA.labelDocument ⟨2026, 9, 11⟩ c7Order 2 } ∧
    containsStr (VariantA.labelDocument ⟨2026, 9, 11⟩ c7Order 2) ("JANE DOE") = false := by
  constructor
  · rw [printHandlerA_eq]
    have horder : handlerOrder c7ParseAddress (fun _ => none) c7Query = c7Order := by decide
    have hcopies : copiesFromLabelCount c7Query.labelCount = 2 := by decide
    rw [horder, hcopies]
    unfold VariantA.generateThermalLabelHtml
    rw [if_pos (by decide)]
    rfl
  · have hls : VariantA.labelsHtml ⟨2026, 9, 11⟩ c7Order 2
        = VariantA.labelBlock ⟨2026, 9, 11⟩ c7Order ++ VariantA.pageBreakHtml ++
          VariantA.labelBlock ⟨2026, 9, 11⟩ c7Order := rfl
    show containsCL (VariantA.labelDocument ⟨2026, 9, 11⟩ c7Order 2).data
      ("JANE DOE").data = false
    simp only [VariantA.labelDocument, hls, VariantA.labelBlock, VariantA.docStyle2,
      String.data_append, List.append_assoc]
    repeat refine containsCL_append_false (by decide) (by decide) ?_
    decide
